import Mathlib

/-
Verification of the ADA-Pi backend core against its natural-language
specification.  Shallow embedding of:
  - src/backend/ipc/router.py            (IPCRouter: subscribe / publish)
  - src/backend/engine/ota_manager.py    (OTAManager: queue_update / _process_job)
  - src/backend/workers/network_worker.py (NetworkWorker._check_failover)
  - src/backend/workers/modem_worker.py  (ModemWorker.connect_data)
Python dicts of lists become association lists, wall-clock seconds become
integers, external effects (HTTP download, file hashing, archive extraction,
copying, subprocesses, AT-command responses) become oracle records whose
fields state the outcome the code branches on.
-/

namespace ADAPi

/-! ## Event bus: src/backend/ipc/router.py -/

/-- Payload of a bus event, modelled as a flat string-keyed dict.
The router never inspects or modifies the payload, it only forwards it. -/
abbrev Payload := List (String × String)

/-- A subscribed callback.  `hid` identifies the callback object; `raises`
records whether invoking it raises an exception (which `publish` catches
per-callback, lines 17-20 and 25-28 of router.py). -/
structure Handler where
  hid : Nat
  raises : Bool
deriving DecidableEq

/-- One callback invocation made by `publish`: which handler was called and
the exact argument value passed to it. -/
structure Call where
  hdl : Handler
  arg : Payload
deriving DecidableEq

/-- `self.subscribers`: a Python dict mapping event name to the list of
callbacks in subscription order, modelled as an association list in key
insertion order. -/
abbrev Registry := List (String × List Handler)

/-- Dict lookup (`self.subscribers[k]` / `k in self.subscribers`). -/
def lookupReg : Registry → String → Option (List Handler)
  | [], _ => none
  | (k1, hs) :: r, k => if k1 = k then some hs else lookupReg r k

/-- `IPCRouter.subscribe` (router.py lines 8-11): create the key with an
empty list if absent, then append the callback.  On the association-list
dict this means: append to the entry holding `key` if one exists, otherwise
add a new entry at the end. -/
def subscribe : Registry → String → Handler → Registry
  | [], key, h => [(key, [h])]
  | (k1, hs) :: r, key, h =>
      if k1 = key then (k1, hs ++ [h]) :: r else (k1, hs) :: subscribe r key h

/-- `IPCRouter.publish` (router.py lines 13-28): call every exact-match
subscriber with `data`, then every `"*"` subscriber, also with `data`.
Each callback is wrapped in try/except, so a raising callback neither stops
the iteration nor propagates: the returned list records every invocation
actually made, and `publish` always returns normally. -/
def publish (r : Registry) (event : String) (d : Payload) : List Call :=
  (match lookupReg r event with
   | some hs => hs.map (fun h => Call.mk h d)
   | none => []) ++
  (match lookupReg r "*" with
   | some hs => hs.map (fun h => Call.mk h d)
   | none => [])

/-- A registry built by a sequence of `subscribe` calls starting from `r`. -/
def buildFrom (r : Registry) (l : List (String × Handler)) : Registry :=
  l.foldl (fun acc p => subscribe acc p.1 p.2) r

/-- The registry of a fresh `IPCRouter` after the `subscribe` calls in `l`. -/
def buildRegistry (l : List (String × Handler)) : Registry := buildFrom [] l

/-- The handlers subscribed under exactly `key`, in subscription order. -/
def handlersOf : List (String × Handler) → String → List Handler
  | [], _ => []
  | p :: l, key => if p.1 = key then p.2 :: handlersOf l key else handlersOf l key

/-- How many subscriptions in `l` are addressed by publishing event `e`
(exact matches plus wildcard subscriptions). -/
def matchingSubs : List (String × Handler) → String → Nat
  | [], _ => 0
  | p :: l, e => (if p.1 = e ∨ p.1 = "*" then 1 else 0) + matchingSubs l e

/-- Dict lookup defaulting to the empty handler list. -/
def lookupD (r : Registry) (key : String) : List Handler := (lookupReg r key).getD []

lemma lookupD_subscribe (r : Registry) (key k : String) (h : Handler) :
    lookupD (subscribe r key h) k = lookupD r k ++ (if k = key then [h] else []) := by
  induction r with
  | nil =>
    by_cases hk : k = key
    · subst hk; simp [subscribe, lookupReg, lookupD]
    · have hk2 : ¬ key = k := fun hc => hk hc.symm
      simp [subscribe, lookupReg, lookupD, hk, hk2]
  | cons p r ih =>
    obtain ⟨k1, hs⟩ := p
    by_cases h1 : k1 = key
    · by_cases h2 : k1 = k
      · have hk : k = key := by rw [← h2, h1]
        simp [subscribe, lookupReg, lookupD, h1, h2, hk]
      · have hk : ¬ k = key := fun hc => h2 (by rw [h1, hc])
        have hk2 : ¬ key = k := fun hc => hk hc.symm
        simp [subscribe, lookupReg, lookupD, h1, h2, hk, hk2]
    · by_cases h2 : k1 = k
      · have hk : ¬ k = key := fun hc => h1 (by rw [h2, hc])
        simp [subscribe, lookupReg, lookupD, h1, h2, hk]
      · simp only [subscribe, if_neg h1, lookupD, lookupReg, if_neg h2]
        exact ih

lemma lookupD_buildFrom (l : List (String × Handler)) :
    ∀ (r : Registry) (k : String),
      lookupD (buildFrom r l) k = lookupD r k ++ handlersOf l k := by
  induction l with
  | nil => intro r k; simp [buildFrom, handlersOf]
  | cons p l ih =>
    intro r k
    obtain ⟨k1, h1⟩ := p
    have hstep : buildFrom r ((k1, h1) :: l) = buildFrom (subscribe r k1 h1) l := rfl
    rw [hstep, ih, lookupD_subscribe]
    by_cases hk : k1 = k
    · rw [if_pos hk.symm]
      simp only [handlersOf, if_pos hk]
      simp [List.append_assoc]
    · rw [if_neg (fun hc => hk hc.symm)]
      simp only [handlersOf, if_neg hk]
      simp

lemma lookupD_build (l : List (String × Handler)) (k : String) :
    lookupD (buildRegistry l) k = handlersOf l k := by
  have := lookupD_buildFrom l [] k
  simpa [buildRegistry, lookupD, lookupReg] using this

lemma publish_eq (r : Registry) (e : String) (d : Payload) :
    publish r e d =
      (lookupD r e).map (fun h => Call.mk h d) ++ (lookupD r "*").map (fun h => Call.mk h d) := by
  unfold publish lookupD
  cases lookupReg r e <;> cases lookupReg r "*" <;> simp

lemma publish_build (l : List (String × Handler)) (e : String) (d : Payload) :
    publish (buildRegistry l) e d =
      (handlersOf l e).map (fun h => Call.mk h d) ++
      (handlersOf l "*").map (fun h => Call.mk h d) := by
  rw [publish_eq, lookupD_build, lookupD_build]

lemma matchingSubs_split (l : List (String × Handler)) (e : String) (he : e ≠ "*") :
    matchingSubs l e = (handlersOf l e).length + (handlersOf l "*").length := by
  induction l with
  | nil => simp [matchingSubs, handlersOf]
  | cons p l ih =>
    obtain ⟨k1, hd⟩ := p
    have he2 : ¬ "*" = e := fun hc => he hc.symm
    by_cases h1 : k1 = e <;> by_cases h2 : k1 = "*"
    · exact absurd (h1 ▸ h2) he
    · simp [matchingSubs, handlersOf, h1, h2, he, he2, ih]; omega
    · simp [matchingSubs, handlersOf, h1, h2, he, he2, ih]; omega
    · simp [matchingSubs, handlersOf, h1, h2, he, he2, ih]

/-- Spec-side variant of `publish`, following the specification's words for
comparison: wildcard handlers receive the payload "augmented with the
originating topic name".  The source passes the payload through unchanged,
so this definition intentionally differs from `publish`. -/
def publishSpecAugmented (r : Registry) (event : String) (d : Payload) : List Call :=
  (match lookupReg r event with
   | some hs => hs.map (fun h => Call.mk h d)
   | none => []) ++
  (match lookupReg r "*" with
   | some hs => hs.map (fun h => Call.mk h (d ++ [("topic", event)]))
   | none => [])

/-- C3: publishing an event `e ≠ "*"` on a bus built by the subscription
sequence `l` makes exactly one call per addressed subscription: first the
handlers subscribed to exactly `e`, then the wildcard handlers, each group
in subscription (insertion) order, every call receiving `d`; the total
number of calls is N + M where N counts the exact and M the wildcard
subscriptions. -/
theorem c3_bus_fanout (l : List (String × Handler)) (e : String) (d : Payload)
    (he : e ≠ "*") :
    publish (buildRegistry l) e d =
      (handlersOf l e).map (fun h => Call.mk h d) ++
      (handlersOf l "*").map (fun h => Call.mk h d) ∧
    (publish (buildRegistry l) e d).length =
      (handlersOf l e).length + (handlersOf l "*").length ∧
    (publish (buildRegistry l) e d).length = matchingSubs l e := by
  refine ⟨publish_build l e d, ?_, ?_⟩
  · rw [publish_build]; simp
  · rw [publish_build, matchingSubs_split l e he]; simp

/-- Witness for C3 at a concrete bus: two exact subscribers and one
wildcard subscriber. -/
theorem c3_witness :
    ("net_up" : String) ≠ "*" ∧
    (publish (buildRegistry [("net_up", ⟨1, false⟩), ("*", ⟨2, false⟩), ("net_up", ⟨3, false⟩)]) "net_up" [] =
      (handlersOf [("net_up", ⟨1, false⟩), ("*", ⟨2, false⟩), ("net_up", ⟨3, false⟩)] "net_up").map
        (fun h => Call.mk h []) ++
      (handlersOf [("net_up", ⟨1, false⟩), ("*", ⟨2, false⟩), ("net_up", ⟨3, false⟩)] "*").map
        (fun h => Call.mk h []) ∧
    (publish (buildRegistry [("net_up", ⟨1, false⟩), ("*", ⟨2, false⟩), ("net_up", ⟨3, false⟩)]) "net_up" []).length =
      (handlersOf [("net_up", ⟨1, false⟩), ("*", ⟨2, false⟩), ("net_up", ⟨3, false⟩)] "net_up").length +
      (handlersOf [("net_up", ⟨1, false⟩), ("*", ⟨2, false⟩), ("net_up", ⟨3, false⟩)] "*").length ∧
    (publish (buildRegistry [("net_up", ⟨1, false⟩), ("*", ⟨2, false⟩), ("net_up", ⟨3, false⟩)]) "net_up" []).length =
      matchingSubs [("net_up", ⟨1, false⟩), ("*", ⟨2, false⟩), ("net_up", ⟨3, false⟩)] "net_up") :=
  ⟨by decide, c3_bus_fanout _ "net_up" [] (by decide)⟩

lemma mem_handlersOf (l : List (String × Handler)) (key : String) :
    ∀ i : Fin l.length, (l.get i).1 = key → (l.get i).2 ∈ handlersOf l key := by
  induction l with
  | nil => exact fun i => i.elim0
  | cons p l ih =>
    intro i
    refine Fin.cases ?_ ?_ i
    · intro hp
      have hp' : p.1 = key := hp
      simp only [handlersOf, if_pos hp']
      exact List.mem_cons_self _ _
    · intro i' hp
      have hp' : (l.get i').1 = key := hp
      by_cases hh : p.1 = key
      · simp only [handlersOf, if_pos hh]
        exact List.mem_cons_of_mem _ (ih i' hp')
      · simp only [handlersOf, if_neg hh]
        exact ih i' hp'

/-- C6: on every bus state and every publish call, a raising subscriber
does not prevent delivery: if the subscription at position `j` holds a
raising handler, then every subscription registered after it — exact-match
or wildcard — that the published event addresses is still invoked with the
payload.  The conclusion does not depend on `hraise` at all: in the model
of router.py the per-callback try/except makes the calls performed
independent of which handlers raise, and `publish` is a total function, so
no exception reaches the publisher. -/
theorem c6_fault_isolation (l : List (String × Handler)) (e : String) (d : Payload)
    (j : Fin l.length) (hraise : (l.get j).2.raises = true)
    (i : Fin l.length) (hij : (j : Nat) < (i : Nat))
    (haddr : (l.get i).1 = e ∨ (l.get i).1 = "*") :
    Call.mk (l.get i).2 d ∈ publish (buildRegistry l) e d := by
  rw [publish_build]
  rcases haddr with he | hw
  · exact List.mem_append.mpr (Or.inl (List.mem_map.mpr
      ⟨(l.get i).2, mem_handlersOf l e i he, rfl⟩))
  · exact List.mem_append.mpr (Or.inr (List.mem_map.mpr
      ⟨(l.get i).2, mem_handlersOf l "*" i hw, rfl⟩))

/-- Witness for C6: a bus with subscribers ok-exact, raising-exact and a
wildcard registered after the raiser; the wildcard handler is still
invoked. -/
theorem c6_witness :
    (([("evt", ⟨7, false⟩), ("evt", ⟨8, true⟩), ("*", ⟨9, false⟩)] :
        List (String × Handler)).get ⟨1, by decide⟩).2.raises = true ∧
    (1 : Nat) < (2 : Nat) ∧
    ((([("evt", ⟨7, false⟩), ("evt", ⟨8, true⟩), ("*", ⟨9, false⟩)] :
        List (String × Handler)).get ⟨2, by decide⟩).1 = "evt" ∨
      (([("evt", ⟨7, false⟩), ("evt", ⟨8, true⟩), ("*", ⟨9, false⟩)] :
        List (String × Handler)).get ⟨2, by decide⟩).1 = "*") ∧
    Call.mk ⟨9, false⟩ [("k", "v")] ∈
      publish (buildRegistry [("evt", ⟨7, false⟩), ("evt", ⟨8, true⟩), ("*", ⟨9, false⟩)])
        "evt" [("k", "v")] :=
  ⟨rfl, by decide, Or.inr rfl,
    c6_fault_isolation [("evt", ⟨7, false⟩), ("evt", ⟨8, true⟩), ("*", ⟨9, false⟩)]
      "evt" [("k", "v")] ⟨1, by decide⟩ rfl ⟨2, by decide⟩ (by decide) (Or.inr rfl)⟩

/-- C7 (amended): every call made by `publish` — wildcard calls included —
receives the published payload unchanged; the router does not augment it
with the topic name. -/
theorem c7_wildcard_payload (l : List (String × Handler)) (e : String) (d : Payload)
    (c : Call) (hc : c ∈ publish (buildRegistry l) e d) : c.arg = d := by
  rw [publish_build] at hc
  rcases List.mem_append.mp hc with hm | hm <;>
    · obtain ⟨h, _, rfl⟩ := List.mem_map.mp hm
      rfl

/-- Witness for C7 (amended) at a concrete wildcard subscription. -/
theorem c7_witness :
    Call.mk ⟨4, false⟩ [("a", "1")] ∈
      publish (buildRegistry [("*", ⟨4, false⟩)]) "gps_update" [("a", "1")] ∧
    (Call.mk ⟨4, false⟩ [("a", "1")]).arg = [("a", "1")] :=
  ⟨by decide, c7_wildcard_payload [("*", ⟨4, false⟩)] "gps_update" [("a", "1")]
    (Call.mk ⟨4, false⟩ [("a", "1")]) (by decide)⟩

/-- Counterexample to C7 as stated: a wildcard handler receives the very
same argument when "alpha" is published as when "beta" is published, so it
cannot determine the originating topic, and the argument differs from the
spec's augmented payload. -/
theorem c7_counterexample :
    publish (buildRegistry [("*", ⟨4, false⟩)]) "alpha" [] =
      publish (buildRegistry [("*", ⟨4, false⟩)]) "beta" [] ∧
    publish (buildRegistry [("*", ⟨4, false⟩)]) "alpha" [] = [Call.mk ⟨4, false⟩ []] ∧
    publishSpecAugmented (buildRegistry [("*", ⟨4, false⟩)]) "alpha" [] =
      [Call.mk ⟨4, false⟩ [("topic", "alpha")]] ∧
    publish (buildRegistry [("*", ⟨4, false⟩)]) "alpha" [] ≠
      publishSpecAugmented (buildRegistry [("*", ⟨4, false⟩)]) "alpha" [] := by
  refine ⟨by decide, by decide, by decide, by decide⟩

/-- C10: publishing the event named literally `"*"` delivers to every
wildcard subscriber twice — once through the exact-match pass and once
through the wildcard pass — for 2·K total calls. -/
theorem c10_wildcard_double_delivery (l : List (String × Handler)) (d : Payload) :
    publish (buildRegistry l) "*" d =
      (handlersOf l "*").map (fun h => Call.mk h d) ++
      (handlersOf l "*").map (fun h => Call.mk h d) ∧
    (publish (buildRegistry l) "*" d).length = 2 * (handlersOf l "*").length := by
  refine ⟨publish_build l "*" d, ?_⟩
  rw [publish_build]
  simp
  omega

/-! ## OTA orchestrator: src/backend/engine/ota_manager.py

`queue_update` publishes a `queued` event and appends the job; `start`
pops jobs FIFO and runs `_process_job`.  Each external effect of
`_process_job` is an oracle field of `OTAEnv`: `downloadOk` is whether
`_download` returns a path (lines 105-125), `readOk`/`digestHex` the
outcome of hashing the file (lines 130-139, `digestHex` being
`hashlib.sha256(...).hexdigest()`), `extractOk` the outcome of
`_extract_to_staging` (lines 144-169, unsupported formats included),
`stagingHasBackend` whether `staging/backend` exists (line 176),
`copyOk` whether `shutil.copytree` succeeds (line 182), `venvOk` the
outcome of `_rebuild_venv` (lines 191-202) and `restartCode` the exit
status of `systemctl restart` (line 208). -/

structure OTAEnv where
  downloadOk : Bool
  readOk : Bool
  digestHex : String
  extractOk : Bool
  stagingHasBackend : Bool
  copyOk : Bool
  venvOk : Bool
  restartCode : Int
deriving DecidableEq

/-- One `ota_status` bus event: the `state` field and the optional `msg`
field of the published payload (the url/file fields carried by some events
do not affect any claim and are not modelled). -/
structure OTAEvent where
  state : String
  msg : Option String
deriving DecidableEq

/-- A non-error progress event. -/
def evS (s : String) : OTAEvent := ⟨s, none⟩

/-- An `{"state": "error", "msg": m}` event. -/
def evErr (m : String) : OTAEvent := ⟨"error", some m⟩

/-- The effectful stages `_process_job` can execute. -/
inductive OTAAction where
  | download
  | verifyHash
  | extract
  | installBackend
  | rebuildVenv
  | restartService
deriving DecidableEq

/-- Contents of the backend install directory `/opt/ada-pi/backend`. -/
inductive DirState where
  | oldContents
  | removed
  | incomplete
  | newContents
deriving DecidableEq

/-- Python `str.lower()`, modelled as per-character lowercasing. -/
def lowerStr (s : String) : String := ⟨s.data.map Char.toLower⟩

/-- `OTAManager._verify_sha256` (lines 130-139): stream-hash the file and
compare `hexdigest().lower() == expected.lower()`; any read error returns
False. -/
def verify_sha256 (env : OTAEnv) (expected : String) : Bool :=
  env.readOk && (lowerStr env.digestHex == lowerStr expected)

/-- `OTAManager._replace_backend` (lines 174-186) acting on the install
directory: if `staging/backend` is missing, return False leaving the
directory untouched; otherwise `shutil.rmtree` the install directory and
`shutil.copytree` the staged payload over it — on copy success the
directory holds the new contents, on copy failure the exception is caught,
False is returned, and the directory is left without its old contents. -/
def replace_backend (env : OTAEnv) (d : DirState) : Bool × DirState :=
  if !env.stagingHasBackend then (false, d)
  else if env.copyOk then (true, DirState.newContents)
  else (false, DirState.incomplete)

/-- The tail of `_process_job` from the extract stage on (lines 76-100),
returning the events published, the stages executed, and the final state
of the backend install directory (initially `d`). -/
def stages_from_extract (env : OTAEnv) (d : DirState) :
    List OTAEvent × List OTAAction × DirState :=
  if !env.extractOk then
    ([evS "extracting", evErr "extract_failed"], [OTAAction.extract], d)
  else if !(replace_backend env d).1 then
    ([evS "extracting", evS "installing_backend", evErr "backend_install_failed"],
      [OTAAction.extract, OTAAction.installBackend], (replace_backend env d).2)
  else if !env.venvOk then
    ([evS "extracting", evS "installing_backend", evS "rebuilding_venv",
       evErr "venv_failed"],
      [OTAAction.extract, OTAAction.installBackend, OTAAction.rebuildVenv],
      (replace_backend env d).2)
  else if env.restartCode ≠ 0 then
    ([evS "extracting", evS "installing_backend", evS "rebuilding_venv",
       evS "restarting", evErr "restart_failed"],
      [OTAAction.extract, OTAAction.installBackend, OTAAction.rebuildVenv,
        OTAAction.restartService],
      (replace_backend env d).2)
  else
    ([evS "extracting", evS "installing_backend", evS "rebuilding_venv",
       evS "restarting", evS "completed"],
      [OTAAction.extract, OTAAction.installBackend, OTAAction.rebuildVenv,
        OTAAction.restartService],
      (replace_backend env d).2)

/-- `OTAManager._process_job` (lines 54-100): download, optional sha256
verification, then the extract/install/venv/restart pipeline; each failing
stage publishes its error event and aborts the job. -/
def process_job (env : OTAEnv) (sha : Option String) :
    List OTAEvent × List OTAAction × DirState :=
  if !env.downloadOk then
    ([evS "downloading", evErr "download_failed"], [OTAAction.download],
      DirState.oldContents)
  else
    match sha with
    | none =>
      let r := stages_from_extract env DirState.oldContents
      ([evS "downloading", evS "downloaded"] ++ r.1,
        OTAAction.download :: r.2.1, r.2.2)
    | some h =>
      if !(verify_sha256 env h) then
        ([evS "downloading", evS "downloaded", evS "verifying",
           evErr "sha256_mismatch"],
          [OTAAction.download, OTAAction.verifyHash], DirState.oldContents)
      else
        let r := stages_from_extract env DirState.oldContents
        ([evS "downloading", evS "downloaded", evS "verifying", evS "verified"] ++ r.1,
          [OTAAction.download, OTAAction.verifyHash] ++ r.2.1, r.2.2)

/-- All `ota_status` events observed for one job: the `queued` event from
`queue_update` (line 37) followed by the events of `_process_job`. -/
def ota_events (env : OTAEnv) (sha : Option String) : List OTAEvent :=
  evS "queued" :: (process_job env sha).1

/-- The `state` fields of the job's event sequence. -/
def ota_states (env : OTAEnv) (sha : Option String) : List String :=
  (ota_events env sha).map OTAEvent.state

/-- The stages executed for the job. -/
def ota_actions (env : OTAEnv) (sha : Option String) : List OTAAction :=
  (process_job env sha).2.1

/-- The final contents of the backend install directory after the job. -/
def ota_final_dir (env : OTAEnv) (sha : Option String) : DirState :=
  (process_job env sha).2.2

/-- The happy-path environment also used to witness the amended C1. -/
def envHappy : OTAEnv :=
  ⟨true, true, "9f2c", true, true, true, true, 0⟩

/-- Environment in which `shutil.copytree` fails during the install stage. -/
def envCopyFail : OTAEnv :=
  ⟨true, true, "9f2c", true, true, false, true, 0⟩

lemma stages_state_cases (env : OTAEnv) (d : DirState) (s : String)
    (hs : s ∈ (stages_from_extract env d).1.map OTAEvent.state) :
    s = "extracting" ∨ s = "installing_backend" ∨ s = "rebuilding_venv" ∨
      s = "restarting" ∨ s = "completed" ∨ s = "error" := by
  cases hE : env.extractOk <;> cases hB : env.stagingHasBackend <;>
    cases hC : env.copyOk <;> cases hV : env.venvOk <;>
    by_cases hR : env.restartCode = 0 <;>
    simp [stages_from_extract, replace_backend, hE, hB, hC, hV, hR, evS, evErr] at hs <;>
    tauto

lemma stages_action_cases (env : OTAEnv) (d : DirState) (a : OTAAction)
    (ha : a ∈ (stages_from_extract env d).2.1) :
    a = OTAAction.extract ∨ a = OTAAction.installBackend ∨
      a = OTAAction.rebuildVenv ∨ a = OTAAction.restartService := by
  cases hE : env.extractOk <;> cases hB : env.stagingHasBackend <;>
    cases hC : env.copyOk <;> cases hV : env.venvOk <;>
    by_cases hR : env.restartCode = 0 <;>
    simp [stages_from_extract, replace_backend, hE, hB, hC, hV, hR] at ha <;>
    tauto

/-- C1 (amended): on a job whose download, verification, extraction,
install, dependency rebuild and restart all succeed, the published
`ota_status` states are exactly queued, downloading, downloaded, verifying,
verified, extracting, installing_backend, rebuilding_venv, restarting,
completed — the dependency-rebuild event the code emits is named
`rebuilding_venv`, not `rebuilding_environment` — with no error event. -/
theorem c1_ota_happy_path (env : OTAEnv) (h : String)
    (h1 : env.downloadOk = true) (h2 : env.readOk = true)
    (h3 : lowerStr env.digestHex = lowerStr h)
    (h4 : env.extractOk = true) (h5 : env.stagingHasBackend = true)
    (h6 : env.copyOk = true) (h7 : env.venvOk = true) (h8 : env.restartCode = 0) :
    ota_states env (some h) =
      ["queued", "downloading", "downloaded", "verifying", "verified",
        "extracting", "installing_backend", "rebuilding_venv", "restarting",
        "completed"] ∧
    "error" ∉ ota_states env (some h) := by
  have hv : verify_sha256 env h = true := by
    simp [verify_sha256, h2, h3]
  have hseq : ota_states env (some h) =
      ["queued", "downloading", "downloaded", "verifying", "verified",
        "extracting", "installing_backend", "rebuilding_venv", "restarting",
        "completed"] := by
    simp [ota_states, ota_events, process_job, stages_from_extract,
      replace_backend, hv, h1, h4, h5, h6, h7, h8, evS, evErr]
  exact ⟨hseq, by rw [hseq]; decide⟩

/-- Witness for the amended C1 at a fully successful concrete environment,
with a digest differing from the supplied hash only in letter case. -/
theorem c1_witness :
    envHappy.downloadOk = true ∧ envHappy.readOk = true ∧
    lowerStr envHappy.digestHex = lowerStr "9F2C" ∧
    envHappy.extractOk = true ∧ envHappy.stagingHasBackend = true ∧
    envHappy.copyOk = true ∧ envHappy.venvOk = true ∧ envHappy.restartCode = 0 ∧
    (ota_states envHappy (some "9F2C") =
      ["queued", "downloading", "downloaded", "verifying", "verified",
        "extracting", "installing_backend", "rebuilding_venv", "restarting",
        "completed"] ∧
    "error" ∉ ota_states envHappy (some "9F2C")) :=
  ⟨rfl, rfl, by decide, rfl, rfl, rfl, rfl, rfl,
    c1_ota_happy_path envHappy "9F2C" rfl rfl (by decide) rfl rfl rfl rfl rfl⟩

/-- Counterexample to C1 as stated: on a fully successful job the code
publishes the state `rebuilding_venv` where the claim requires
`rebuilding_environment`, so the claimed sequence is not the published
one. -/
theorem c1_counterexample :
    envHappy.downloadOk = true ∧ envHappy.readOk = true ∧
    lowerStr envHappy.digestHex = lowerStr "9F2C" ∧
    envHappy.extractOk = true ∧ envHappy.stagingHasBackend = true ∧
    envHappy.copyOk = true ∧ envHappy.venvOk = true ∧ envHappy.restartCode = 0 ∧
    ota_states envHappy (some "9F2C") ≠
      ["queued", "downloading", "downloaded", "verifying", "verified",
        "extracting", "installing_backend", "rebuilding_environment",
        "restarting", "completed"] ∧
    "rebuilding_venv" ∈ ota_states envHappy (some "9F2C") := by
  refine ⟨rfl, rfl, by decide, rfl, rfl, rfl, rfl, rfl, by decide, by decide⟩

/-- C4: a supplied sha256 that does not match the downloaded file's digest
(case-insensitively) terminates the job with an `error{sha256_mismatch}`
event immediately after `verifying`, and the extract, install, venv and
restart stages are never executed; with no sha256 supplied, no verifying or
verified event is published and the verification stage never runs. -/
theorem c4_sha256_mismatch :
    (∀ (env : OTAEnv) (h : String), env.downloadOk = true →
      lowerStr env.digestHex ≠ lowerStr h →
      ota_events env (some h) =
        [evS "queued", evS "downloading", evS "downloaded", evS "verifying",
          evErr "sha256_mismatch"] ∧
      OTAAction.extract ∉ ota_actions env (some h) ∧
      OTAAction.installBackend ∉ ota_actions env (some h) ∧
      OTAAction.rebuildVenv ∉ ota_actions env (some h) ∧
      OTAAction.restartService ∉ ota_actions env (some h)) ∧
    (∀ env : OTAEnv, "verifying" ∉ ota_states env none ∧
      "verified" ∉ ota_states env none ∧
      OTAAction.verifyHash ∉ ota_actions env none) := by
  constructor
  · intro env h hD hmis
    have hv : verify_sha256 env h = false := by
      simp [verify_sha256, beq_eq_false_iff_ne.mpr hmis]
    refine ⟨?_, ?_, ?_, ?_, ?_⟩ <;>
      simp [ota_events, ota_actions, process_job, hD, hv, evS, evErr]
  · intro env
    cases hD : env.downloadOk
    · refine ⟨?_, ?_, ?_⟩ <;>
        simp [ota_states, ota_events, ota_actions, process_job, hD, evS, evErr]
    · refine ⟨?_, ?_, ?_⟩
      · intro hmem
        simp [ota_states, ota_events, process_job, hD, evS, evErr] at hmem
        rcases stages_state_cases env DirState.oldContents "verifying" (by
          simpa using hmem) with hx | hx | hx | hx | hx | hx <;> exact absurd hx (by decide)
      · intro hmem
        simp [ota_states, ota_events, process_job, hD, evS, evErr] at hmem
        rcases stages_state_cases env DirState.oldContents "verified" (by
          simpa using hmem) with hx | hx | hx | hx | hx | hx <;> exact absurd hx (by decide)
      · intro hmem
        simp [ota_actions, process_job, hD] at hmem
        rcases stages_action_cases env DirState.oldContents OTAAction.verifyHash (by
          simpa using hmem) with hx | hx | hx | hx <;> exact absurd hx (by decide)

/-- Witness for C4 at a concrete mismatching job: digest `9f2c`, supplied
hash `dead`. -/
theorem c4_witness :
    envHappy.downloadOk = true ∧ lowerStr envHappy.digestHex ≠ lowerStr "dead" ∧
    (ota_events envHappy (some "dead") =
      [evS "queued", evS "downloading", evS "downloaded", evS "verifying",
        evErr "sha256_mismatch"] ∧
    OTAAction.extract ∉ ota_actions envHappy (some "dead") ∧
    OTAAction.installBackend ∉ ota_actions envHappy (some "dead") ∧
    OTAAction.rebuildVenv ∉ ota_actions envHappy (some "dead") ∧
    OTAAction.restartService ∉ ota_actions envHappy (some "dead")) ∧
    ("verifying" ∉ ota_states envHappy none ∧
    "verified" ∉ ota_states envHappy none ∧
    OTAAction.verifyHash ∉ ota_actions envHappy none) :=
  ⟨rfl, by decide, c4_sha256_mismatch.1 envHappy "dead" rfl (by decide),
    c4_sha256_mismatch.2 envHappy⟩

/-- C8 (amended): the install stage replaces the backend directory by
deleting it and then copying the staged payload, which is not atomic: the
stage succeeds exactly when the staged payload has the `backend` directory
and the copy succeeds, in which case the directory holds the new contents;
when the `backend` directory is missing the stage fails leaving the
directory untouched; when the copy itself fails the stage also fails with
`backend_install_failed` and the directory is left without its old
contents. -/
theorem c8_install_semantics :
    (∀ (env : OTAEnv) (d : DirState),
      ((replace_backend env d).1 = true ↔
        env.stagingHasBackend = true ∧ env.copyOk = true) ∧
      ((replace_backend env d).1 = true →
        (replace_backend env d).2 = DirState.newContents) ∧
      (env.stagingHasBackend = false →
        (replace_backend env d).1 = false ∧ (replace_backend env d).2 = d) ∧
      (env.stagingHasBackend = true → env.copyOk = false →
        (replace_backend env d).1 = false ∧
        (replace_backend env d).2 = DirState.incomplete)) ∧
    (∀ env : OTAEnv, env.extractOk = true →
      (evErr "backend_install_failed" ∈ (stages_from_extract env DirState.oldContents).1 ↔
        ¬(env.stagingHasBackend = true ∧ env.copyOk = true))) := by
  constructor
  · intro env d
    cases hB : env.stagingHasBackend <;> cases hC : env.copyOk <;>
      simp [replace_backend, hB, hC]
  · intro env hE
    cases hB : env.stagingHasBackend <;> cases hC : env.copyOk <;>
      cases hV : env.venvOk <;> by_cases hR : env.restartCode = 0 <;>
      simp [stages_from_extract, replace_backend, hB, hC, hV, hR, hE, evS, evErr]

/-- Witness for the amended C8 at the copy-failure environment. -/
theorem c8_witness :
    ((replace_backend envCopyFail DirState.oldContents).1 = true ↔
      envCopyFail.stagingHasBackend = true ∧ envCopyFail.copyOk = true) ∧
    envCopyFail.extractOk = true ∧
    (evErr "backend_install_failed" ∈
        (stages_from_extract envCopyFail DirState.oldContents).1 ↔
      ¬(envCopyFail.stagingHasBackend = true ∧ envCopyFail.copyOk = true)) :=
  ⟨(c8_install_semantics.1 envCopyFail DirState.oldContents).1, rfl,
    c8_install_semantics.2 envCopyFail rfl⟩

/-- Counterexample to C8 as stated: with the staged `backend` directory
present but the copy failing, the install directory ends up neither with
its old contents nor with the new ones, and the stage fails with
`backend_install_failed` even though the expected top-level directory is
present. -/
theorem c8_counterexample :
    envCopyFail.stagingHasBackend = true ∧
    (replace_backend envCopyFail DirState.oldContents).1 = false ∧
    (replace_backend envCopyFail DirState.oldContents).2 = DirState.incomplete ∧
    DirState.incomplete ≠ DirState.oldContents ∧
    DirState.incomplete ≠ DirState.newContents ∧
    evErr "backend_install_failed" ∈
      (stages_from_extract envCopyFail DirState.oldContents).1 := by
  refine ⟨rfl, rfl, rfl, by decide, by decide, by decide⟩

/-! ## Connectivity failover: src/backend/workers/network_worker.py

`NetworkWorker._check_failover` (lines 123-169) evaluated on one tick:
`now` is `time.time()` in whole seconds, `wifi_ok`/`eth_ok` the
`connected` flags read from the NetworkManager engine, `has_internet` the
result of the ping-based reachability probe.  The worker state holds the
failover configuration and counters set in `__init__` (lines 35-38) and
`_load_failover_config` (lines 54-55). -/

structure FailoverState where
  failover_enabled : Bool
  failover_apn : String
  failover_active : Bool
  last_failover_check : Int
  last_modem_attempt : Int
  consecutive_failures : Nat
deriving DecidableEq

/-- `FAILOVER_CHECK_INTERVAL` (line 25). -/
def FAILOVER_CHECK_INTERVAL : Int := 30

/-- `FAILOVER_RETRY_DELAY` (line 26). -/
def FAILOVER_RETRY_DELAY : Int := 60

/-- The state right after `NetworkWorker.__init__`. -/
def initState (enabled : Bool) (apn : String) : FailoverState :=
  ⟨enabled, apn, false, 0, 0, 0⟩

/-- Inputs read during one failover check. -/
structure Tick where
  now : Int
  wifi_ok : Bool
  eth_ok : Bool
  has_internet : Bool
deriving DecidableEq

/-- `NetworkWorker._on_modem_data_changed` (lines 63-71): track the modem
data-session state as `_failover_active`. -/
def on_modem_data_changed (s : FailoverState) (connected : Bool) : FailoverState :=
  { s with failover_active := connected }

/-- `NetworkWorker._check_failover` (lines 123-169), returning the new
state and the bus events published during the tick. -/
def check_failover (s : FailoverState) (t : Tick) : FailoverState × List String :=
  if !s.failover_enabled || s.failover_apn == "" then (s, [])
  else if t.now - s.last_failover_check < FAILOVER_CHECK_INTERVAL then (s, [])
  else if (t.wifi_ok || t.eth_ok) && t.has_internet then
    (if s.failover_active then
      ({ s with
          last_failover_check := t.now
          failover_active := false
          consecutive_failures := 0 }, ["modem_disconnect_request"])
    else
      ({ s with
          last_failover_check := t.now
          consecutive_failures := 0 }, []))
  else if 2 ≤ s.consecutive_failures + 1 ∧ s.failover_active = false then
    (if t.now - s.last_modem_attempt < FAILOVER_RETRY_DELAY then
      ({ s with
          last_failover_check := t.now
          consecutive_failures := s.consecutive_failures + 1 }, [])
    else
      ({ s with
          last_failover_check := t.now
          last_modem_attempt := t.now
          consecutive_failures := s.consecutive_failures + 1 },
        ["modem_connect_request"]))
  else
    ({ s with
        last_failover_check := t.now
        consecutive_failures := s.consecutive_failures + 1 }, [])

/-- C2: the monitor never requests a modem connect before the second
consecutive failure; starting from a fresh worker, three consecutive
failing ticks (each past the 30s check gate, the third within the 60s
retry window of the second) publish `modem_connect_request` exactly once,
on the tick where the failure count reaches 2; and no tick occurring
within the retry delay of the last modem attempt ever publishes
`modem_connect_request`. -/
theorem c2_failover_hysteresis :
    (∀ (s : FailoverState) (t : Tick),
      "modem_connect_request" ∈ (check_failover s t).2 →
      2 ≤ (check_failover s t).1.consecutive_failures) ∧
    (∀ (s : FailoverState) (t : Tick),
      t.now - s.last_modem_attempt < FAILOVER_RETRY_DELAY →
      "modem_connect_request" ∉ (check_failover s t).2) ∧
    (∀ (apn : String) (t1 t2 t3 : Tick), apn ≠ "" →
      ((t1.wifi_ok || t1.eth_ok) && t1.has_internet) = false →
      ((t2.wifi_ok || t2.eth_ok) && t2.has_internet) = false →
      ((t3.wifi_ok || t3.eth_ok) && t3.has_internet) = false →
      30 ≤ t1.now → 30 ≤ t2.now - t1.now → 30 ≤ t3.now - t2.now →
      60 ≤ t2.now → t3.now - t2.now < 60 →
      (check_failover (initState true apn) t1).2 = [] ∧
      (check_failover (initState true apn) t1).1.consecutive_failures = 1 ∧
      (check_failover (check_failover (initState true apn) t1).1 t2).2 =
        ["modem_connect_request"] ∧
      (check_failover (check_failover (initState true apn) t1).1 t2).1.consecutive_failures = 2 ∧
      (check_failover (check_failover (check_failover (initState true apn) t1).1 t2).1 t3).2 = []) := by
  refine ⟨?_, ?_, ?_⟩
  · intro s t h
    by_cases c1 : (!s.failover_enabled || s.failover_apn == "") = true
    · simp [check_failover, c1] at h
    · by_cases c2 : t.now - s.last_failover_check < FAILOVER_CHECK_INTERVAL
      · simp [check_failover, c1, c2] at h
      · by_cases c3 : ((t.wifi_ok || t.eth_ok) && t.has_internet) = true
        · cases c4 : s.failover_active <;> simp [check_failover, c1, c2, c3, c4] at h
        · by_cases c5 : 1 ≤ s.consecutive_failures ∧ s.failover_active = false
          · by_cases c6 : t.now - s.last_modem_attempt < FAILOVER_RETRY_DELAY
            · simp [check_failover, c1, c2, c3, c5, c6] at h
            · simp [check_failover, c1, c2, c3, c5, c6]
          · simp [check_failover, c1, c2, c3, c5] at h
  · intro s t hdelay h
    by_cases c1 : (!s.failover_enabled || s.failover_apn == "") = true
    · simp [check_failover, c1] at h
    · by_cases c2 : t.now - s.last_failover_check < FAILOVER_CHECK_INTERVAL
      · simp [check_failover, c1, c2] at h
      · by_cases c3 : ((t.wifi_ok || t.eth_ok) && t.has_internet) = true
        · cases c4 : s.failover_active <;> simp [check_failover, c1, c2, c3, c4] at h
        · by_cases c5 : 1 ≤ s.consecutive_failures ∧ s.failover_active = false
          · simp [check_failover, c1, c2, c3, c5, hdelay] at h
          · simp [check_failover, c1, c2, c3, c5] at h
  · intro apn t1 t2 t3 hapn hf1 hf2 hf3 g1 g2 g3 g4 g5
    have ha : (apn == "") = false := beq_eq_false_iff_ne.mpr hapn
    have n1 : ¬(t1.now - (0 : Int) < 30) := by omega
    have h1 : check_failover (initState true apn) t1 =
        (⟨true, apn, false, t1.now, 0, 1⟩, []) := by
      simp [check_failover, initState, FAILOVER_CHECK_INTERVAL, ha, n1, hf1] <;> omega
    have n2 : ¬(t2.now - t1.now < 30) := by omega
    have n2' : ¬(t2.now - (0 : Int) < 60) := by omega
    have h2 : check_failover (⟨true, apn, false, t1.now, 0, 1⟩ : FailoverState) t2 =
        (⟨true, apn, false, t2.now, t2.now, 2⟩, ["modem_connect_request"]) := by
      simp [check_failover, FAILOVER_CHECK_INTERVAL, FAILOVER_RETRY_DELAY, ha, n2, n2', hf2] <;> omega
    have n3 : ¬(t3.now - t2.now < 30) := by omega
    have n3' : t3.now - t2.now < 60 := g5
    have h3 : check_failover (⟨true, apn, false, t2.now, t2.now, 2⟩ : FailoverState) t3 =
        (⟨true, apn, false, t3.now, t2.now, 3⟩, []) := by
      simp [check_failover, FAILOVER_CHECK_INTERVAL, FAILOVER_RETRY_DELAY, ha, n3, n3', hf3]
    simp [h1, h2, h3]

/-- Witness for C2: three failing ticks at seconds 60, 90, 120 from a
fresh worker with APN "internet". -/
theorem c2_witness :
    ("internet" : String) ≠ "" ∧
    (((⟨60, false, false, false⟩ : Tick).wifi_ok || (⟨60, false, false, false⟩ : Tick).eth_ok) &&
      (⟨60, false, false, false⟩ : Tick).has_internet) = false ∧
    (check_failover (initState true "internet") ⟨60, false, false, false⟩).2 = [] ∧
    (check_failover (initState true "internet") ⟨60, false, false, false⟩).1.consecutive_failures = 1 ∧
    (check_failover (check_failover (initState true "internet") ⟨60, false, false, false⟩).1
      ⟨90, false, false, false⟩).2 = ["modem_connect_request"] ∧
    (check_failover (check_failover (initState true "internet") ⟨60, false, false, false⟩).1
      ⟨90, false, false, false⟩).1.consecutive_failures = 2 ∧
    (check_failover (check_failover (check_failover (initState true "internet")
      ⟨60, false, false, false⟩).1 ⟨90, false, false, false⟩).1
      ⟨120, false, false, false⟩).2 = [] := by
  have h := c2_failover_hysteresis.2.2 "internet"
    ⟨60, false, false, false⟩ ⟨90, false, false, false⟩ ⟨120, false, false, false⟩
    (by decide) (by decide) (by decide) (by decide)
    (by decide) (by decide) (by decide) (by decide) (by decide)
  exact ⟨by decide, by decide, h.1, h.2.1, h.2.2.1, h.2.2.2.1, h.2.2.2.2⟩

/-- C5: once a `modem_data_connected{connected:true}` event has made
failover active, the first tick that finds a primary link up with the
reachability probe succeeding publishes `modem_disconnect_request` exactly
once and resets the failure counter to 0 with failover inactive; and no
tick ever publishes `modem_disconnect_request` while failover is
inactive. -/
theorem c5_failover_recovery :
    (∀ (s : FailoverState) (t : Tick),
      s.failover_enabled = true → s.failover_apn ≠ "" →
      ¬(t.now - s.last_failover_check < FAILOVER_CHECK_INTERVAL) →
      (t.wifi_ok || t.eth_ok) = true → t.has_internet = true →
      check_failover (on_modem_data_changed s true) t =
        ({ s with
            failover_active := false
            last_failover_check := t.now
            consecutive_failures := 0 }, ["modem_disconnect_request"])) ∧
    (∀ (s : FailoverState) (t : Tick), s.failover_active = false →
      "modem_disconnect_request" ∉ (check_failover s t).2) := by
  constructor
  · intro s t hen hapn hgate hlink hnet
    have ha : (s.failover_apn == "") = false := beq_eq_false_iff_ne.mpr hapn
    simp [check_failover, on_modem_data_changed, hen, ha, hgate, hlink, hnet]
  · intro s t hact h
    by_cases c1 : (!s.failover_enabled || s.failover_apn == "") = true
    · simp [check_failover, c1] at h
    · by_cases c2 : t.now - s.last_failover_check < FAILOVER_CHECK_INTERVAL
      · simp [check_failover, c1, c2] at h
      · by_cases c3 : ((t.wifi_ok || t.eth_ok) && t.has_internet) = true
        · simp [check_failover, c1, c2, c3, hact] at h
        · by_cases c5 : 1 ≤ s.consecutive_failures ∧ s.failover_active = false
          · by_cases c6 : t.now - s.last_modem_attempt < FAILOVER_RETRY_DELAY <;>
              simp [check_failover, c1, c2, c3, c5, c6] at h
          · simp [check_failover, c1, c2, c3, c5] at h

/-- Witness for C5: failover made active by the modem event, then a tick
with WiFi connected and reachability restored. -/
theorem c5_witness :
    (⟨true, "apn1", false, 0, 0, 5⟩ : FailoverState).failover_enabled = true ∧
    (⟨true, "apn1", false, 0, 0, 5⟩ : FailoverState).failover_apn ≠ "" ∧
    ¬(((⟨40, true, false, true⟩ : Tick).now -
        (⟨true, "apn1", false, 0, 0, 5⟩ : FailoverState).last_failover_check) <
        FAILOVER_CHECK_INTERVAL) ∧
    check_failover (on_modem_data_changed ⟨true, "apn1", false, 0, 0, 5⟩ true)
        ⟨40, true, false, true⟩ =
      (⟨true, "apn1", false, 40, 0, 0⟩, ["modem_disconnect_request"]) ∧
    "modem_disconnect_request" ∉
      (check_failover ⟨true, "apn1", false, 40, 0, 0⟩ ⟨80, true, false, true⟩).2 :=
  ⟨rfl, by decide, by decide,
    c5_failover_recovery.1 ⟨true, "apn1", false, 0, 0, 5⟩ ⟨40, true, false, true⟩
      rfl (by decide) (by decide) rfl rfl,
    c5_failover_recovery.2 ⟨true, "apn1", false, 40, 0, 0⟩ ⟨80, true, false, true⟩ rfl⟩

/-! ## Modem data controller: src/backend/workers/modem_worker.py

`ModemWorker.connect_data` (lines 370-454).  The oracle fields stand for
the outcomes the code branches on: `modemReady` for
`_ensure_modem_connected()` (whose own AT probing is not modelled),
`registered` for whether the `AT+CREG?` response shows registration,
`isSimcom` for the brand check, `gotIp` for `_check_data_interface()`.
Exceptions inside the try block are caught and return False without
publishing, observably like the modelled failure paths. -/

structure ModemState where
  data_connected : Bool
  apn : String
  apn_username : String
  apn_password : String
deriving DecidableEq

structure ModemEnv where
  modemReady : Bool
  registered : Bool
  isSimcom : Bool
  gotIp : Bool
deriving DecidableEq

/-- Result of one `connect_data` call: the Python return value, the state
afterwards, the AT commands issued, and the bus events published (event
name with the `connected` payload field). -/
structure ConnectResult where
  ok : Bool
  final : ModemState
  cmds : List String
  events : List (String × Bool)
deriving DecidableEq

/-- `ModemWorker.connect_data` (lines 370-454): return immediately when
already connected; fail without publishing when no APN is configured, when
the modem is unavailable, or when not registered; otherwise configure the
PDP context (with auth when both username and password are set), bring up
the data connection (SIMCom NETOPEN or generic CGACT), and publish
`modem_data_connected{connected:true}` only when an interface IP was
obtained. -/
def connect_data (s : ModemState) (env : ModemEnv) : ConnectResult :=
  if s.data_connected then ⟨true, s, [], []⟩
  else if s.apn == "" then ⟨false, s, [], []⟩
  else if !env.modemReady then ⟨false, s, [], []⟩
  else if !env.registered then ⟨false, s, ["AT+CREG?"], []⟩
  else
    let apnCmds :=
      if s.apn_username != "" && s.apn_password != "" then
        ["AT+CGDCONT=1,\"IP\",\"" ++ s.apn ++ "\"",
          "AT+CGAUTH=1,1,\"" ++ s.apn_username ++ "\",\"" ++ s.apn_password ++ "\""]
      else
        ["AT+CGDCONT=1,\"IP\",\"" ++ s.apn ++ "\""]
    let netCmds :=
      if env.isSimcom then ["AT+NETCLOSE", "AT+NETOPEN", "AT+NETOPEN?"]
      else ["AT+CGACT=1,1"]
    if env.gotIp then
      ⟨true, { s with data_connected := true }, "AT+CREG?" :: (apnCmds ++ netCmds),
        [("modem_data_connected", true)]⟩
    else
      ⟨false, s, "AT+CREG?" :: (apnCmds ++ netCmds), []⟩

/-- C9 (amended): when the data session is already connected,
`connect_data` is a no-op — it returns success with no AT commands issued,
no event published and the state unchanged; when no APN is configured it
fails fast — it returns failure with no AT commands, no event published
and the state unchanged (it does not publish
`modem_data_connected{connected:false}`). -/
theorem c9_connect_guards :
    (∀ (s : ModemState) (env : ModemEnv), s.data_connected = true →
      connect_data s env = ⟨true, s, [], []⟩) ∧
    (∀ (s : ModemState) (env : ModemEnv), s.data_connected = false → s.apn = "" →
      connect_data s env = ⟨false, s, [], []⟩) := by
  constructor
  · intro s env hc
    simp [connect_data, hc]
  · intro s env hc hapn
    simp [connect_data, hc, hapn]

/-- Witness for the amended C9: an already-connected state, and a
disconnected state with an empty APN. -/
theorem c9_witness :
    (⟨true, "web", "", ""⟩ : ModemState).data_connected = true ∧
    connect_data ⟨true, "web", "", ""⟩ ⟨true, true, false, true⟩ =
      ⟨true, ⟨true, "web", "", ""⟩, [], []⟩ ∧
    (⟨false, "", "", ""⟩ : ModemState).data_connected = false ∧
    (⟨false, "", "", ""⟩ : ModemState).apn = "" ∧
    connect_data ⟨false, "", "", ""⟩ ⟨true, true, false, true⟩ =
      ⟨false, ⟨false, "", "", ""⟩, [], []⟩ :=
  ⟨rfl, c9_connect_guards.1 ⟨true, "web", "", ""⟩ ⟨true, true, false, true⟩ rfl,
    rfl, rfl, c9_connect_guards.2 ⟨false, "", "", ""⟩ ⟨true, true, false, true⟩ rfl rfl⟩

/-- Counterexample to C9 as stated: with no APN configured and the session
disconnected, `connect_data` publishes nothing at all — in particular not
the claimed `modem_data_connected{connected:false}` event. -/
theorem c9_counterexample :
    (connect_data ⟨false, "", "", ""⟩ ⟨true, true, false, true⟩).events = [] ∧
    (connect_data ⟨false, "", "", ""⟩ ⟨true, true, false, true⟩).events ≠
      [("modem_data_connected", false)] ∧
    (connect_data ⟨false, "", "", ""⟩ ⟨true, true, false, true⟩).ok = false ∧
    (connect_data ⟨false, "", "", ""⟩ ⟨true, true, false, true⟩).cmds = [] := by
  refine ⟨by decide, by decide, by decide, by decide⟩

end ADAPi
